import Mathlib

/-!
Shallow embedding of the chibi-manager overlay engine (src/main.rs).

Coordinates are modelled as `Int`: the code stores logical positions in
`f64` cells and projects them to integer layer-shell margins with an
`as i32` cast; none of the properties below depend on fractional values,
and the drag handler applies a single addition to a snapshot (never an
accumulation), so integer arithmetic is a faithful carrier.  Freshly
generated UUIDs and dialog text are supplied as oracle inputs.  GTK weak
references are modelled by a per-entry `alive` flag: any handler that
upgrades a weak reference before acting is gated on it.
-/

/-- `struct ChibiPreset` (decoded form, after serde defaults applied). -/
structure ChibiPreset where
  id : String
  name : String
  path : String
  width : Int
  x : Int
  y : Int
  smart_hide : Bool
  always_on_top : Bool
  hide_delay : Nat
deriving DecidableEq

/-- `fn default_delay() -> u64 { 3 }` — serde default for a missing
`hide_delay` field. -/
def default_delay : Nat := 3

/-- A preset as it appears in the stored JSON document: `hide_delay` is
optional there (`#[serde(default = "default_delay")]`), every other
field is required for the parse to succeed. -/
structure StoredPreset where
  id : String
  name : String
  path : String
  width : Int
  x : Int
  y : Int
  smart_hide : Bool
  always_on_top : Bool
  hide_delay_opt : Option Nat
deriving DecidableEq

/-- Serde decoding of one stored preset: missing `hide_delay` falls back
to `default_delay`. -/
def decode_preset (s : StoredPreset) : ChibiPreset :=
  { id := s.id, name := s.name, path := s.path, width := s.width,
    x := s.x, y := s.y, smart_hide := s.smart_hide,
    always_on_top := s.always_on_top,
    hide_delay := s.hide_delay_opt.getD default_delay }

/-- Outcome of reading the configuration file: missing path, read
failure, or content whose parse yields `none` (malformed document) or
the list of stored presets. -/
inductive FileRead where
  | missing
  | unreadable
  | content (doc : Option (List StoredPreset))

/-- `fn load_presets() -> Vec<ChibiPreset>`: empty on a missing file, on
a read error, and on a parse error; otherwise the decoded document. -/
def load_presets (f : FileRead) : List ChibiPreset :=
  match f with
  | .missing => []
  | .unreadable => []
  | .content none => []
  | .content (some doc) => doc.map decode_preset

/-- The per-instance cells and window state created in
`spawn_chibi_window`: the shared `current_x`/`current_y` cells (the
authoritative logical position), the drag-origin snapshot cells, the
`move_mode` cell, the layer-shell margins (on-screen projection), and a
count of scheduled one-shot hide timeouts.  `sid` identifies the
underlying `gtk::Window` surface. -/
structure InstanceState where
  sid : Nat
  current_x : Int
  current_y : Int
  start_win_x : Int
  start_win_y : Int
  move_mode : Bool
  margin_left : Int
  margin_top : Int
  pending_timers : Nat
  smart_hide : Bool
  hide_delay : Nat
deriving DecidableEq

/-- `fn spawn_chibi_window` — `// ALWAYS CREATE FRESH`: builds a brand
new window (surface id `sid` supplied by the allocator), margins from
the preset, parked at 20000 when the global hide flag is already set. -/
def spawn_chibi_window (data : ChibiPreset) (global_hide : Bool) (sid : Nat) :
    InstanceState :=
  { sid := sid
    current_x := data.x
    current_y := data.y
    start_win_x := 0
    start_win_y := 0
    move_mode := false
    margin_left := if global_hide then 20000 else data.x
    margin_top := data.y
    pending_timers := 0
    smart_hide := data.smart_hide
    hide_delay := data.hide_delay }

/-- `connect_drag_begin`: when move-mode is armed, snapshot the current
logical position into the `start_win` cells. -/
def drag_begin_inst (s : InstanceState) : InstanceState :=
  if s.move_mode then
    { s with start_win_x := s.current_x, start_win_y := s.current_y }
  else s

/-- `connect_drag_update`: `offset` is strictly (current pointer − press
pointer) as reported by `GestureDrag`; the new position is the snapshot
plus the offset, applied both to the logical cells and to the margins. -/
def drag_update_inst (s : InstanceState) (offset_x offset_y : Int) : InstanceState :=
  if s.move_mode then
    { s with margin_left := s.start_win_x + offset_x,
             margin_top := s.start_win_y + offset_y,
             current_x := s.start_win_x + offset_x,
             current_y := s.start_win_y + offset_y }
  else s

/-- One full drag gesture: press at pointer `press`, then one motion
event per entry of `motions` (each handler call receives the offset
"current pointer − press pointer"), then release.  No drag-end handler
is connected in the source, so release changes nothing. -/
def run_drag (s : InstanceState) (press : Int × Int)
    (motions : List (Int × Int)) : InstanceState :=
  motions.foldl
    (fun st p => drag_update_inst st (p.1 - press.1) (p.2 - press.2))
    (drag_begin_inst s)

/-- Body of `hide_ctrl.connect_enter` (the controller is only installed
when `data.smart_hide`; the surrounding weak-ref upgrade is modelled at
the app level).  Ignores the hover while move-mode or global hide is on,
or while the logical `current_x` exceeds 9000; otherwise parks the
projection at 10000 and schedules one one-shot hide timeout. -/
def hover_enter_inst (global_hide : Bool) (s : InstanceState) : InstanceState :=
  if s.move_mode then s
  else if global_hide then s
  else if s.current_x > 9000 then s
  else { s with margin_left := 10000, pending_timers := s.pending_timers + 1 }

/-- Body of the one-shot `timeout_add_seconds_local` callback: restore
the projection to the current logical position only if move-mode is
still off and global hide is still off; the timeout is consumed either
way (`ControlFlow::Break`). -/
def timer_fire_inst (global_hide : Bool) (s : InstanceState) : InstanceState :=
  if s.move_mode = false ∧ global_hide = false then
    { s with margin_left := s.current_x,
             pending_timers := s.pending_timers - 1 }
  else { s with pending_timers := s.pending_timers - 1 }

/-- A `gtk::Window` surface as the recycle pool sees it. -/
structure Surface where
  sid : Nat
  margin_left : Int
  margin_top : Int
  has_child : Bool
deriving DecidableEq

def surface_of (s : InstanceState) : Surface :=
  { sid := s.sid, margin_left := s.margin_left, margin_top := s.margin_top,
    has_child := true }

/-- `recycle_window`: strip the child, park at the 30000 sentinel, push
onto `dead_pool` (`Vec::push` appends at the end). -/
def recycle_window (pool : List Surface) (w : Surface) : List Surface :=
  pool ++ [{ w with has_child := false, margin_left := 30000 }]

/-- One spawned overlay: the `ActiveWindowRef` pushed into the registry
(`preset_id`, the weak window ref modelled by `alive`, and the shared
`current_x` cell which lives in `inst`), merged with the row-closure
state created alongside it in `add_to_active_ui` (`is_new_state`,
`current_id`, `current_name`, and the captured spawn-time `data`).  The
source links the two through the window weak reference; they are 1:1. -/
structure Entry where
  preset_id : Option String
  alive : Bool
  inst : InstanceState
  is_new : Bool
  current_id : String
  current_name : String
  data0 : ChibiPreset
deriving DecidableEq

/-- The UI-thread state owned by `build_ui`. -/
structure AppState where
  registry : List Entry
  dead_pool : List Surface
  global_hide : Bool
  presets : List ChibiPreset
  persisted : List ChibiPreset
  next_sid : Nat
  selected_path : Option String
deriving DecidableEq

/-- `add_to_active_ui(data, is_new)`: spawns the chibi window (always a
fresh surface — `spawn_chibi_window` never consults the pool), appends
the row, and pushes an `ActiveWindowRef` with
`preset_id: Some(data.id.clone())`. -/
def add_to_active_ui (st : AppState) (data : ChibiPreset) (is_new : Bool) :
    AppState :=
  { st with
    next_sid := st.next_sid + 1
    registry := st.registry ++
      [{ preset_id := some data.id, alive := true,
         inst := spawn_chibi_window data st.global_hide st.next_sid,
         is_new := is_new, current_id := data.id, current_name := data.name,
         data0 := data }] }

/-- The spawn form's widget values. -/
structure SpawnForm where
  size : Int
  sx : Int
  sy : Int
  smart_hide : Bool
  always_on_top : Bool
deriving DecidableEq

/-- `spawn_btn.connect_clicked`: a no-op when no image is selected;
otherwise builds a fresh preset (spawn-time `Uuid::new_v4` supplied as
`fresh`) and spawns it with `is_new = true`. -/
def spawn_btn_clicked (st : AppState) (form : SpawnForm) (fresh : String) :
    AppState :=
  match st.selected_path with
  | none => st
  | some p =>
    add_to_active_ui st
      { id := fresh, name := "New Chibi", path := p, width := form.size,
        x := form.sx, y := form.sy, smart_hide := form.smart_hide,
        always_on_top := form.always_on_top, hide_delay := 3 } true

/-- `vec.iter_mut().find(|p| p.id == final_data.id)` followed by
`*existing = final_data`: replace the first stored preset with a
matching id, leave the rest alone. -/
def update_first (ps : List ChibiPreset) (fd : ChibiPreset) : List ChibiPreset :=
  match ps with
  | [] => []
  | p :: rest => if p.id = fd.id then fd :: rest else p :: update_first rest fd

/-- `save_btn.connect_clicked` for the row of registry entry `i`.
`final_data` starts from the spawn-time `data` with position, delay and
id read back from the cells (and, for an already-saved row, the current
name).  Not-new: update the stored preset in place and save.  New: the
name dialog completes with text `txt` — empty text, like Cancel, changes
nothing; otherwise a fresh Uuid becomes the preset id, the preset is
pushed and saved, the row flips to not-new, and the registry entry whose
window matches this row is rebound to `Some(fresh)` (that lookup
upgrades two weak window refs, hence the `alive` gate). -/
def save_clicked (st : AppState) (i : Nat) (fresh txt : String) : AppState :=
  match st.registry[i]? with
  | none => st
  | some e =>
    let fd : ChibiPreset :=
      { e.data0 with
        x := e.inst.current_x
        y := e.inst.current_y
        hide_delay := e.inst.hide_delay
        id := e.current_id
        name := if e.is_new then e.data0.name else e.current_name }
    if e.is_new then
      if txt = "" then st
      else
        let np : ChibiPreset := { fd with id := fresh, name := txt }
        let ps2 := st.presets ++ [np]
        { st with
          presets := ps2
          persisted := ps2
          registry := st.registry.set i
            { e with
              is_new := false
              current_id := fresh
              current_name := txt
              preset_id := if e.alive then some fresh else e.preset_id } }
    else
      let ps2 := update_first st.presets fd
      { st with presets := ps2, persisted := ps2 }

/-- `close_btn.connect_clicked` for the row of entry `i`: removes the
first registry entry whose `preset_id` equals this row's current id, and
recycles this row's own window (held by a strong clone, so no liveness
gate on the recycle). -/
def close_clicked (st : AppState) (i : Nat) : AppState :=
  match st.registry[i]? with
  | none => st
  | some e =>
    let reg2 :=
      match st.registry.findIdx? (fun x => decide (x.preset_id = some e.current_id)) with
      | some idx => st.registry.eraseIdx idx
      | none => st.registry
    { st with
      registry := reg2
      dead_pool := recycle_window st.dead_pool (surface_of e.inst) }

/-- `vec.iter().position(|p| p.id == pid)` plus `vec.remove(pos)`:
`none` when the id is absent (and then no save happens). -/
def remove_first_preset (ps : List ChibiPreset) (pid : String) :
    Option (List ChibiPreset) :=
  match ps with
  | [] => none
  | p :: rest =>
    if p.id = pid then some rest
    else (remove_first_preset rest pid).map (fun v => p :: v)

/-- `del_btn.connect_clicked` for preset id `pid`: recycle the window of
every live registry entry bound to `pid` (in registry order), drop all
matching entries, and, if the store still holds `pid`, remove its first
occurrence and save the store. -/
def delete_preset_clicked (st : AppState) (pid : String) : AppState :=
  let pool2 := st.registry.foldl
    (fun pl e =>
      if e.preset_id = some pid then
        if e.alive then recycle_window pl (surface_of e.inst) else pl
      else pl)
    st.dead_pool
  let reg2 := st.registry.filter (fun e => !(decide (e.preset_id = some pid)))
  match remove_first_preset st.presets pid with
  | some v =>
    { st with registry := reg2, dead_pool := pool2, presets := v, persisted := v }
  | none => { st with registry := reg2, dead_pool := pool2 }

/-- The per-entry action of `AppMsg::ToggleHideAll` (new flag value
`new_state`): live windows are parked at 20000 or restored to the shared
`current_x` cell; dead weak refs are skipped. -/
def toggle_entry (new_state : Bool) (e : Entry) : Entry :=
  if e.alive then
    if new_state then { e with inst := { e.inst with margin_left := 20000 } }
    else { e with inst := { e.inst with margin_left := e.inst.current_x } }
  else e

/-- `AppMsg::ToggleHideAll` handler in the 100 ms poll loop: flip the
flag, then reproject every live window. -/
def toggle_hide_all (st : AppState) : AppState :=
  { st with
    global_hide := !st.global_hide
    registry := st.registry.map (toggle_entry (!st.global_hide)) }

/-- Apply a cell-level mutation to the instance of registry entry `i`
(used for handlers that touch only the shared cells). -/
def update_inst (st : AppState) (i : Nat) (f : InstanceState → InstanceState) :
    AppState :=
  match st.registry[i]? with
  | none => st
  | some e => { st with registry := st.registry.set i { e with inst := f e.inst } }

/-- Hover-enter delivered to entry `i`: the handler exists only on
smart-hide instances and begins by upgrading the window weak ref. -/
def hover_event (st : AppState) (i : Nat) : AppState :=
  match st.registry[i]? with
  | none => st
  | some e =>
    if e.alive && e.inst.smart_hide then
      let e2 := { e with inst := hover_enter_inst st.global_hide e.inst }
      { st with registry := st.registry.set i e2 }
    else st

/-- A scheduled hide timeout of entry `i` fires: the callback upgrades
the window weak ref; when that fails only the timeout is consumed. -/
def timer_event (st : AppState) (i : Nat) : AppState :=
  match st.registry[i]? with
  | none => st
  | some e =>
    let inst2 :=
      if e.alive then timer_fire_inst st.global_hide e.inst
      else { e.inst with pending_timers := e.inst.pending_timers - 1 }
    { st with registry := st.registry.set i { e with inst := inst2 } }

/-- A drag-update for entry `i`: the handler upgrades the window weak
ref before moving anything. -/
def drag_update_event (st : AppState) (i : Nat) (ox oy : Int) : AppState :=
  match st.registry[i]? with
  | none => st
  | some e =>
    if e.alive then
      let e2 := { e with inst := drag_update_inst e.inst ox oy }
      { st with registry := st.registry.set i e2 }
    else st

/-- The events the UI thread dispatches, each carrying its oracle
inputs (fresh Uuids, dialog text, GestureDrag offsets, target indices).
`RefreshPresets` only rebuilds the preset list widgets and is omitted:
it touches none of the modelled state. -/
inductive AppOp where
  | selectImage (p : String)
  | spawnClick (form : SpawnForm) (fresh : String)
  | spawnPreset (p : ChibiPreset)
  | saveClick (i : Nat) (fresh txt : String)
  | closeClick (i : Nat)
  | deletePreset (pid : String)
  | toggleHideAll
  | toggleMove (i : Nat) (active : Bool)
  | hoverEnter (i : Nat)
  | timerFire (i : Nat)
  | dragBegin (i : Nat)
  | dragUpdate (i : Nat) (ox oy : Int)

/-- Dispatch of one event on the UI thread. -/
def step (st : AppState) (op : AppOp) : AppState :=
  match op with
  | .selectImage p => { st with selected_path := some p }
  | .spawnClick form fresh => spawn_btn_clicked st form fresh
  | .spawnPreset p => add_to_active_ui st p false
  | .saveClick i fresh txt => save_clicked st i fresh txt
  | .closeClick i => close_clicked st i
  | .deletePreset pid => delete_preset_clicked st pid
  | .toggleHideAll => toggle_hide_all st
  | .toggleMove i a => update_inst st i (fun s => { s with move_mode := a })
  | .hoverEnter i => hover_event st i
  | .timerFire i => timer_event st i
  | .dragBegin i => update_inst st i drag_begin_inst
  | .dragUpdate i ox oy => drag_update_event st i ox oy

def run (st : AppState) (ops : List AppOp) : AppState :=
  ops.foldl step st

/-- `build_ui` initial state: empty registry and pool, global hide off,
presets loaded from disk, nothing selected. -/
def init_state (f : FileRead) : AppState :=
  { registry := [], dead_pool := [], global_hide := false,
    presets := load_presets f, persisted := load_presets f,
    next_sid := 0, selected_path := none }

def entry_ok (e : Entry) : Bool := e.preset_id.isSome

/-- The registry never holds an entry whose `preset_id` is `None`. -/
def registry_ok (st : AppState) : Bool := st.registry.all entry_ok

/-! ## Drag invariant (C1) -/

lemma drag_update_inst_keeps (s : InstanceState) (ox oy : Int) :
    (drag_update_inst s ox oy).move_mode = s.move_mode ∧
    (drag_update_inst s ox oy).start_win_x = s.start_win_x ∧
    (drag_update_inst s ox oy).start_win_y = s.start_win_y := by
  unfold drag_update_inst
  split <;> simp

lemma drag_motions_last (press : Int × Int) :
    ∀ (ms : List (Int × Int)) (t : InstanceState) (lastp : Int × Int),
      t.move_mode = true →
      ((ms ++ [lastp]).foldl
          (fun st p => drag_update_inst st (p.1 - press.1) (p.2 - press.2))
          t).current_x = t.start_win_x + (lastp.1 - press.1) ∧
      ((ms ++ [lastp]).foldl
          (fun st p => drag_update_inst st (p.1 - press.1) (p.2 - press.2))
          t).current_y = t.start_win_y + (lastp.2 - press.2) := by
  intro ms
  induction ms with
  | nil =>
    intro t lastp ht
    simp [drag_update_inst, ht]
  | cons m ms ih =>
    intro t lastp ht
    have hk := drag_update_inst_keeps t (m.1 - press.1) (m.2 - press.2)
    have hrec := ih (drag_update_inst t (m.1 - press.1) (m.2 - press.2)) lastp
      (by rw [hk.1]; exact ht)
    simp only [List.cons_append, List.foldl_cons]
    exact ⟨by rw [hrec.1, hk.2.1], by rw [hrec.2, hk.2.2]⟩

/-- Claim C1: for a drag performed while move-mode is armed — a press,
a non-empty sequence of motion events (here `ms ++ [lastp]`), and a
release — the final logical position equals the position snapshotted at
press plus (last pointer − press pointer), independent of the number
and timing of the intermediate motion events `ms`. -/
theorem drag_final_position_absolute (s : InstanceState) (press lastp : Int × Int)
    (ms : List (Int × Int)) (hm : s.move_mode = true) :
    (run_drag s press (ms ++ [lastp])).current_x = s.current_x + (lastp.1 - press.1) ∧
    (run_drag s press (ms ++ [lastp])).current_y = s.current_y + (lastp.2 - press.2) := by
  unfold run_drag
  have hb : (drag_begin_inst s).move_mode = true := by
    simp [drag_begin_inst, hm]
  have hsx : (drag_begin_inst s).start_win_x = s.current_x := by
    simp [drag_begin_inst, hm]
  have hsy : (drag_begin_inst s).start_win_y = s.current_y := by
    simp [drag_begin_inst, hm]
  obtain ⟨hx, hy⟩ := drag_motions_last press ms (drag_begin_inst s) lastp hb
  exact ⟨by rw [hx, hsx], by rw [hy, hsy]⟩

def drag_witness_state : InstanceState :=
  { sid := 0, current_x := 100, current_y := 120, start_win_x := 0,
    start_win_y := 0, move_mode := true, margin_left := 100,
    margin_top := 120, pending_timers := 0, smart_hide := false,
    hide_delay := 3 }

theorem drag_final_position_absolute_witness :
    drag_witness_state.move_mode = true ∧
    ((run_drag drag_witness_state (3, 4) ([(30, 40), (-5, 8)] ++ [(13, 24)])).current_x
        = drag_witness_state.current_x + (13 - 3) ∧
     (run_drag drag_witness_state (3, 4) ([(30, 40), (-5, 8)] ++ [(13, 24)])).current_y
        = drag_witness_state.current_y + (24 - 4)) :=
  ⟨rfl, drag_final_position_absolute drag_witness_state (3, 4) (13, 24)
    [(30, 40), (-5, 8)] rfl⟩

/-! ## Hover-hide idempotence (C3) -/

def c3_start : InstanceState :=
  { sid := 0, current_x := 100, current_y := 100, start_win_x := 0,
    start_win_y := 0, move_mode := false, margin_left := 100,
    margin_top := 100, pending_timers := 0, smart_hide := true,
    hide_delay := 3 }

/-- Claim C3 (code bug): a smart-hide instance at logical x = 100 with
move-mode off and global hide off.  The first hover-enter parks it
(projection at 10000) and schedules one timer; a second hover-enter
delivered while it is parked schedules a SECOND timer, because the
already-parked guard reads the logical `current_x` — which parking never
mutates — instead of the projection, so `current_x > 9000` never fires
for a parked-but-not-teleported instance. -/
theorem hover_park_double_schedule :
    (hover_enter_inst false c3_start).margin_left = 10000 ∧
    (hover_enter_inst false c3_start).pending_timers = 1 ∧
    (hover_enter_inst false (hover_enter_inst false c3_start)).margin_left = 10000 ∧
    (hover_enter_inst false (hover_enter_inst false c3_start)).pending_timers = 2 := by
  decide

/-! ## Smart-hide park and timer-fire semantics (C6) -/

/-- Claim C6: a hover-induced park mutates only the projection, never
the stored logical position; and the one-shot timer restores the
projection to the current logical position exactly when move-mode is
off and global hide is false at fire time, doing nothing otherwise. -/
theorem hover_park_and_timer_fire_semantics (gh : Bool) (s : InstanceState) :
    (hover_enter_inst gh s).current_x = s.current_x ∧
    (hover_enter_inst gh s).current_y = s.current_y ∧
    (s.move_mode = false → gh = false → s.current_x ≤ 9000 →
      (hover_enter_inst gh s).margin_left = 10000) ∧
    (s.move_mode = false → gh = false →
      (timer_fire_inst gh s).margin_left = s.current_x) ∧
    (¬ (s.move_mode = false ∧ gh = false) →
      (timer_fire_inst gh s).margin_left = s.margin_left ∧
      (timer_fire_inst gh s).current_x = s.current_x ∧
      (timer_fire_inst gh s).current_y = s.current_y) := by
  refine ⟨?_, ?_, ?_, ?_, ?_⟩
  · unfold hover_enter_inst
    split
    · rfl
    · split
      · rfl
      · split <;> rfl
  · unfold hover_enter_inst
    split
    · rfl
    · split
      · rfl
      · split <;> rfl
  · intro hmv hgh hx
    unfold hover_enter_inst
    rw [hmv, hgh]
    simp [not_lt.mpr hx]
  · intro hmv hgh
    unfold timer_fire_inst
    rw [if_pos ⟨hmv, hgh⟩]
  · intro h
    unfold timer_fire_inst
    rw [if_neg h]
    exact ⟨rfl, rfl, rfl⟩

def c6_state : InstanceState :=
  { sid := 1, current_x := 100, current_y := 150, start_win_x := 0,
    start_win_y := 0, move_mode := false, margin_left := 100,
    margin_top := 150, pending_timers := 0, smart_hide := true,
    hide_delay := 3 }

theorem hover_park_and_timer_fire_semantics_witness :
    (hover_enter_inst false c6_state).current_x = c6_state.current_x ∧
    (hover_enter_inst false c6_state).margin_left = 10000 ∧
    (timer_fire_inst false c6_state).margin_left = c6_state.current_x ∧
    ((timer_fire_inst true c6_state).margin_left = c6_state.margin_left ∧
     (timer_fire_inst true c6_state).current_x = c6_state.current_x) := by
  have h0 := hover_park_and_timer_fire_semantics false c6_state
  have h1 := hover_park_and_timer_fire_semantics true c6_state
  refine ⟨h0.1, h0.2.2.1 rfl rfl (by decide), h0.2.2.2.1 rfl rfl, ?_⟩
  have h2 := h1.2.2.2.2 (by decide)
  exact ⟨h2.1, h2.2.1⟩

/-! ## Preset loading defaults (C8) -/

/-- Claim C8: `load_presets` yields the empty list when the file is
missing or unreadable, and serde decoding applies defaults for missing
optional fields — in particular a stored preset without a hide-delay
field decodes with `hide_delay = 3`. -/
theorem load_presets_defaults :
    load_presets .missing = [] ∧
    load_presets .unreadable = [] ∧
    (∀ doc, load_presets (.content (some doc)) = doc.map decode_preset) ∧
    (∀ s : StoredPreset, s.hide_delay_opt = none →
      (decode_preset s).hide_delay = 3) := by
  refine ⟨rfl, rfl, fun doc => rfl, fun s hs => ?_⟩
  simp [decode_preset, hs, default_delay]

def stored_no_delay : StoredPreset :=
  { id := "p8", name := "n8", path := "img8", width := 200, x := 100,
    y := 100, smart_hide := true, always_on_top := false,
    hide_delay_opt := none }

theorem load_presets_defaults_witness :
    stored_no_delay.hide_delay_opt = none ∧
    (decode_preset stored_no_delay).hide_delay = 3 :=
  ⟨rfl, load_presets_defaults.2.2.2 stored_no_delay rfl⟩

/-! ## Spawn without image (C9) -/

/-- Claim C9: a spawn request while no image is selected is rejected
locally — the state is unchanged: no overlay instance, no registry
entry, no persisted change. -/
theorem spawn_without_image_rejected (st : AppState) (form : SpawnForm)
    (fresh : String) (h : st.selected_path = none) :
    spawn_btn_clicked st form fresh = st ∧
    (spawn_btn_clicked st form fresh).registry = st.registry ∧
    (spawn_btn_clicked st form fresh).persisted = st.persisted := by
  have heq : spawn_btn_clicked st form fresh = st := by
    unfold spawn_btn_clicked
    rw [h]
  exact ⟨heq, by rw [heq], by rw [heq]⟩

def c9_form : SpawnForm :=
  { size := 200, sx := 100, sy := 100, smart_hide := false,
    always_on_top := false }

theorem spawn_without_image_rejected_witness :
    (init_state .missing).selected_path = none ∧
    spawn_btn_clicked (init_state .missing) c9_form "u9" = init_state .missing :=
  ⟨rfl, (spawn_without_image_rejected (init_state .missing) c9_form "u9" rfl).1⟩

/-! ## Recycle pool acquire/retire (C4) -/

def c4_pooled_surface : Surface :=
  { sid := 7, margin_left := 30000, margin_top := 0, has_child := false }

def c4_preset : ChibiPreset :=
  { id := "p4", name := "n4", path := "img4", width := 200, x := 100,
    y := 100, smart_hide := false, always_on_top := false, hide_delay := 3 }

def c4_state : AppState :=
  { registry := [], dead_pool := [c4_pooled_surface], global_hide := false,
    presets := [c4_preset], persisted := [c4_preset], next_sid := 8,
    selected_path := none }

/-- Claim C4 counterexample: with a non-empty recycle pool (one retired
surface, sid 7), spawning an overlay still allocates a brand-new surface
(the fresh counter value 8) and leaves the pool untouched — the claimed
pop-most-recently-retired-on-acquire never happens. -/
theorem acquire_never_pops_pool_cex :
    (add_to_active_ui c4_state c4_preset false).dead_pool = [c4_pooled_surface] ∧
    ((add_to_active_ui c4_state c4_preset false).registry.map
      (fun e => e.inst.sid)) = [8] := by
  decide

/-- Claim C4 (amended): acquiring a surface for a spawning overlay
always creates a fresh OS window and never pops the recycle pool, even
when the pool is non-empty; retiring a closed instance's surface pushes
it (stripped and parked at the sentinel) into the pool instead of
destroying it. -/
theorem spawn_always_fresh_retire_pushes (st : AppState) (data : ChibiPreset)
    (b : Bool) (pool : List Surface) (w : Surface) :
    (add_to_active_ui st data b).dead_pool = st.dead_pool ∧
    ((add_to_active_ui st data b).registry.map (fun e => e.inst.sid))
      = st.registry.map (fun e => e.inst.sid) ++ [st.next_sid] ∧
    (add_to_active_ui st data b).next_sid = st.next_sid + 1 ∧
    recycle_window pool w
      = pool ++ [{ w with has_child := false, margin_left := 30000 }] := by
  refine ⟨rfl, ?_, rfl, rfl⟩
  simp [add_to_active_ui, spawn_chibi_window]

/-! ## Rebind-once across Save clicks (C5) -/

def c5_form : SpawnForm :=
  { size := 200, sx := 100, sy := 100, smart_hide := false,
    always_on_top := false }

def c5_state : AppState :=
  { registry := [], dead_pool := [], global_hide := false, presets := [],
    persisted := [], next_sid := 0, selected_path := some "img5" }

/-- Claim C5 counterexample: an instance spawned unsaved enters the
Active Registry with `preset_id = Some(spawn-time uuid)` already — it is
never `None`, so the claimed `None → Some(id)` transition does not occur
at all (the first Save instead rebinds `Some(u0)` to a new id). -/
theorem unsaved_spawn_preset_id_not_none_cex :
    ((spawn_btn_clicked c5_state c5_form "u0").registry.map
      (fun e => e.preset_id)) = [some "u0"] ∧
    ((spawn_btn_clicked c5_state c5_form "u0").registry.map
      (fun e => e.is_new)) = [true] := by
  decide

lemma update_first_map_id (fd : ChibiPreset) :
    ∀ ps : List ChibiPreset,
      (update_first ps fd).map (fun p => p.id) = ps.map (fun p => p.id) := by
  intro ps
  induction ps with
  | nil => rfl
  | cons p rest ih =>
    unfold update_first
    by_cases h : p.id = fd.id
    · rw [if_pos h]
      simp [h]
    · rw [if_neg h]
      simp [ih]

lemma save_loop_stable (i : Nat) :
    ∀ (L : List (String × String)) (s : AppState) (x : Entry),
      s.registry[i]? = some x → x.is_new = false →
      ((L.foldl (fun s2 q => save_clicked s2 i q.1 q.2) s).registry[i]? = some x ∧
       (L.foldl (fun s2 q => save_clicked s2 i q.1 q.2) s).presets.map (fun p => p.id)
         = s.presets.map (fun p => p.id)) := by
  intro L
  induction L with
  | nil =>
    intro s x hx _
    exact ⟨hx, rfl⟩
  | cons q L ih =>
    intro s x hx hnew
    have hstep : (save_clicked s i q.1 q.2).registry = s.registry ∧
        (save_clicked s i q.1 q.2).presets.map (fun p => p.id)
          = s.presets.map (fun p => p.id) := by
      unfold save_clicked
      rw [hx]
      simp [hnew, update_first_map_id]
    obtain ⟨h1, h2⟩ := ih (save_clicked s i q.1 q.2) x (by rw [hstep.1]; exact hx) hnew
    simp only [List.foldl_cons]
    exact ⟨h1, h2.trans hstep.2⟩

lemma getElem?_set_of_get {α : Type} {l : List α} {i : Nat} {a : α} (b : α)
    (h : l[i]? = some a) : (l.set i b)[i]? = some b := by
  obtain ⟨hlt, -⟩ := List.getElem?_eq_some_iff.1 h
  exact List.getElem?_set_self hlt

/-- Claim C5 (amended): an instance spawned unsaved carries
`preset_id = Some(spawn-time id)` from insertion (never `None`, see the
counterexample); across repeated Save clicks the entry's preset id is
rebound exactly once — the first successful Save (non-empty name `txt`)
binds it to the freshly generated preset id `f` and flips the row to
not-new, and every later Save click leaves the registry untouched and
updates the existing stored preset under that same id, creating no
second id; the id never becomes `None`. -/
theorem rebind_once_after_first_save (st : AppState) (i : Nat) (e : Entry)
    (f txt : String) (he : st.registry[i]? = some e) (hnew : e.is_new = true)
    (halive : e.alive = true) (htxt : ¬ txt = "") :
    ((save_clicked st i f txt).registry[i]?).map
        (fun x => (x.preset_id, x.is_new, x.current_id))
      = some (some f, false, f) ∧
    f ∈ (save_clicked st i f txt).presets.map (fun p => p.id) ∧
    (∀ L : List (String × String),
      ((L.foldl (fun s2 q => save_clicked s2 i q.1 q.2)
          (save_clicked st i f txt)).registry[i]?).map
          (fun x => (x.preset_id, x.is_new, x.current_id))
        = some (some f, false, f) ∧
      (L.foldl (fun s2 q => save_clicked s2 i q.1 q.2)
          (save_clicked st i f txt)).presets.map (fun p => p.id)
        = (save_clicked st i f txt).presets.map (fun p => p.id)) := by
  have hst1 : (save_clicked st i f txt).registry[i]?
      = some { e with
               is_new := false
               current_id := f
               current_name := txt
               preset_id := if e.alive then some f else e.preset_id } ∧
      (save_clicked st i f txt).presets = st.presets ++
        [{ e.data0 with
           x := e.inst.current_x
           y := e.inst.current_y
           hide_delay := e.inst.hide_delay
           id := f
           name := txt }] := by
    constructor
    · unfold save_clicked
      rw [he]
      simp only [hnew, if_true, if_neg htxt]
      exact getElem?_set_of_get _ he
    · unfold save_clicked
      rw [he]
      simp [hnew, htxt]
  refine ⟨?_, ?_, ?_⟩
  · rw [hst1.1]
    simp [halive]
  · rw [hst1.2]
    simp
  · intro L
    obtain ⟨h1, h2⟩ := save_loop_stable i L (save_clicked st i f txt)
      { e with
        is_new := false
        current_id := f
        current_name := txt
        preset_id := if e.alive then some f else e.preset_id }
      hst1.1 rfl
    constructor
    · rw [h1]
      simp [halive]
    · exact h2

def c5w_preset : ChibiPreset :=
  { id := "u0", name := "New Chibi", path := "img5", width := 200, x := 100,
    y := 100, smart_hide := false, always_on_top := false, hide_delay := 3 }

def c5w_entry : Entry :=
  { preset_id := some "u0", alive := true,
    inst := spawn_chibi_window c5w_preset false 0, is_new := true,
    current_id := "u0", current_name := "New Chibi", data0 := c5w_preset }

def c5w_state : AppState :=
  { registry := [c5w_entry], dead_pool := [], global_hide := false,
    presets := [], persisted := [], next_sid := 1, selected_path := none }

theorem rebind_once_after_first_save_witness :
    c5w_state.registry[0]? = some c5w_entry ∧
    c5w_entry.is_new = true ∧
    c5w_entry.alive = true ∧
    ¬ "Named" = "" ∧
    (((save_clicked c5w_state 0 "f1" "Named").registry[0]?).map
        (fun x => (x.preset_id, x.is_new, x.current_id))
      = some (some "f1", false, "f1") ∧
    "f1" ∈ (save_clicked c5w_state 0 "f1" "Named").presets.map (fun p => p.id) ∧
    (∀ L : List (String × String),
      ((L.foldl (fun s2 q => save_clicked s2 0 q.1 q.2)
          (save_clicked c5w_state 0 "f1" "Named")).registry[0]?).map
          (fun x => (x.preset_id, x.is_new, x.current_id))
        = some (some "f1", false, "f1") ∧
      (L.foldl (fun s2 q => save_clicked s2 0 q.1 q.2)
          (save_clicked c5w_state 0 "f1" "Named")).presets.map (fun p => p.id)
        = (save_clicked c5w_state 0 "f1" "Named").presets.map (fun p => p.id))) :=
  ⟨rfl, rfl, rfl, by decide,
    rebind_once_after_first_save c5w_state 0 c5w_entry "f1" "Named" rfl rfl rfl
      (by decide)⟩

/-! ## Global-hide override (C2) -/

lemma timer_event_keeps_hidden (st : AppState) (j : Nat)
    (hg : st.global_hide = true) :
    (timer_event st j).global_hide = true ∧
    ∀ i : Nat, ((timer_event st j).registry[i]?).map
        (fun x => (x.inst.margin_left, x.inst.current_x, x.alive))
      = (st.registry[i]?).map
        (fun x => (x.inst.margin_left, x.inst.current_x, x.alive)) := by
  unfold timer_event
  split
  · exact ⟨hg, fun i => rfl⟩
  · rename_i e hj
    refine ⟨hg, fun i => ?_⟩
    by_cases hij : i = j
    · subst hij
      rw [getElem?_set_of_get _ hj, hj]
      by_cases ha : e.alive = true
      · simp [ha, timer_fire_inst, hg]
      · simp [ha]
    · rw [List.getElem?_set_ne (Ne.symm hij)]

lemma timer_run_keeps_hidden (ks : List Nat) :
    ∀ st : AppState, st.global_hide = true →
      (run st (ks.map AppOp.timerFire)).global_hide = true ∧
      ∀ i : Nat, ((run st (ks.map AppOp.timerFire)).registry[i]?).map
          (fun x => (x.inst.margin_left, x.inst.current_x, x.alive))
        = (st.registry[i]?).map
          (fun x => (x.inst.margin_left, x.inst.current_x, x.alive)) := by
  induction ks with
  | nil => intro st hg; exact ⟨hg, fun i => rfl⟩
  | cons k ks ih =>
    intro st hg
    have h1 := timer_event_keeps_hidden st k hg
    have h2 := ih (timer_event st k) h1.1
    exact ⟨h2.1, fun i => (h2.2 i).trans (h1.2 i)⟩

lemma toggle_on_parks (st : AppState) (i : Nat) (e : Entry)
    (h0 : st.global_hide = false) (he : st.registry[i]? = some e)
    (ha : e.alive = true) :
    (toggle_hide_all st).global_hide = true ∧
    ((toggle_hide_all st).registry[i]?).map
        (fun x => (x.inst.margin_left, x.inst.current_x, x.alive))
      = some (20000, e.inst.current_x, true) := by
  unfold toggle_hide_all
  rw [h0]
  refine ⟨rfl, ?_⟩
  rw [List.getElem?_map, he]
  simp [toggle_entry, ha]

lemma toggle_off_restores (st : AppState) (i : Nat) (e : Entry)
    (h1 : st.global_hide = true) (he : st.registry[i]? = some e)
    (ha : e.alive = true) :
    (toggle_hide_all st).global_hide = false ∧
    ((toggle_hide_all st).registry[i]?).map
        (fun x => (x.inst.margin_left, x.inst.current_x))
      = some (e.inst.current_x, e.inst.current_x) := by
  unfold toggle_hide_all
  rw [h1]
  refine ⟨rfl, ?_⟩
  rw [List.getElem?_map, he]
  simp [toggle_entry, ha]

/-- Claim C2: for any live instance and any pending state of its local
hide timers, toggling global-hide on parks its projection at the
off-screen coordinate 20000; after any number of stale local timer
firings while hidden, toggling global-hide off restores its projection
to its last known logical position — which the stale timers never
mutated. -/
theorem global_hide_override_restores (st : AppState) (i : Nat) (e : Entry)
    (ks : List Nat) (h0 : st.global_hide = false)
    (he : st.registry[i]? = some e) (ha : e.alive = true) :
    ((toggle_hide_all st).registry[i]?).map (fun x => x.inst.margin_left)
      = some 20000 ∧
    (toggle_hide_all (run (toggle_hide_all st) (ks.map AppOp.timerFire))).global_hide
      = false ∧
    ((toggle_hide_all (run (toggle_hide_all st)
        (ks.map AppOp.timerFire))).registry[i]?).map
        (fun x => (x.inst.margin_left, x.inst.current_x))
      = some (e.inst.current_x, e.inst.current_x) := by
  obtain ⟨hg1, hproj⟩ := toggle_on_parks st i e h0 he ha
  have hrun := timer_run_keeps_hidden ks (toggle_hide_all st) hg1
  have hmid := (hrun.2 i).trans hproj
  obtain ⟨e2, he2, hpe2⟩ := Option.map_eq_some'.1 hmid
  have he2x : e2.inst.current_x = e.inst.current_x :=
    congrArg (fun t => t.2.1) hpe2
  have he2a : e2.alive = true := congrArg (fun t => t.2.2) hpe2
  have hoff := toggle_off_restores
    (run (toggle_hide_all st) (ks.map AppOp.timerFire)) i e2 hrun.1 he2 he2a
  refine ⟨?_, hoff.1, ?_⟩
  · obtain ⟨e1, he1, hpe1⟩ := Option.map_eq_some'.1 hproj
    have hm1 : e1.inst.margin_left = 20000 := congrArg (fun t => t.1) hpe1
    rw [he1]
    simp [hm1]
  · rw [hoff.2, he2x]

def c2_preset : ChibiPreset :=
  { id := "p2", name := "n2", path := "img2", width := 200, x := 100,
    y := 100, smart_hide := true, always_on_top := false, hide_delay := 3 }

def c2_entry : Entry :=
  { preset_id := some "p2", alive := true,
    inst := spawn_chibi_window c2_preset false 0, is_new := false,
    current_id := "p2", current_name := "n2", data0 := c2_preset }

def c2_state : AppState :=
  { registry := [c2_entry], dead_pool := [], global_hide := false,
    presets := [c2_preset], persisted := [c2_preset], next_sid := 1,
    selected_path := none }

theorem global_hide_override_restores_witness :
    c2_state.global_hide = false ∧
    c2_state.registry[0]? = some c2_entry ∧
    c2_entry.alive = true ∧
    (((toggle_hide_all c2_state).registry[0]?).map
        (fun x => x.inst.margin_left) = some 20000 ∧
     (toggle_hide_all (run (toggle_hide_all c2_state)
        ([0, 0].map AppOp.timerFire))).global_hide = false ∧
     ((toggle_hide_all (run (toggle_hide_all c2_state)
        ([0, 0].map AppOp.timerFire))).registry[0]?).map
        (fun x => (x.inst.margin_left, x.inst.current_x))
      = some (c2_entry.inst.current_x, c2_entry.inst.current_x)) :=
  ⟨rfl, rfl, rfl,
    global_hide_override_restores c2_state 0 c2_entry [0, 0] rfl rfl rfl⟩

/-! ## Delete-preset cascade (C7) -/

lemma remove_first_preset_count (pid : String) :
    ∀ ps : List ChibiPreset,
      (ps.map (fun p => p.id)).count pid = 1 →
      ∃ v, remove_first_preset ps pid = some v ∧
        (v.map (fun p => p.id)).count pid = 0 := by
  intro ps
  induction ps with
  | nil => intro h; simp at h
  | cons p rest ih =>
    intro h
    rw [List.map_cons, List.count_cons] at h
    by_cases hp : p.id = pid
    · refine ⟨rest, ?_, ?_⟩
      · unfold remove_first_preset
        rw [if_pos hp]
      · simp [hp] at h
        exact h
    · simp [hp] at h
      obtain ⟨v, hv, hv0⟩ := ih h
      refine ⟨p :: v, ?_, ?_⟩
      · unfold remove_first_preset
        rw [if_neg hp, hv]
        rfl
      · rw [List.map_cons, List.count_cons]
        simp [hp, hv0]

lemma recycle_pool_length (pid : String) :
    ∀ (l : List Entry) (pl : List Surface),
      (∀ e ∈ l, e.preset_id = some pid → e.alive = true) →
      (l.foldl
        (fun pl2 e =>
          if e.preset_id = some pid then
            if e.alive then recycle_window pl2 (surface_of e.inst) else pl2
          else pl2)
        pl).length
      = pl.length
        + (l.filter (fun e => decide (e.preset_id = some pid))).length := by
  intro l
  induction l with
  | nil => intro pl _; simp
  | cons e l ih =>
    intro pl h
    have hmem : ∀ x ∈ l, x.preset_id = some pid → x.alive = true :=
      fun x hx => h x (List.mem_cons_of_mem e hx)
    by_cases hp : e.preset_id = some pid
    · have ha : e.alive = true := h e (List.mem_cons_self e l) hp
      rw [List.foldl_cons, if_pos hp, if_pos ha, ih _ hmem]
      simp [recycle_window, List.filter_cons, hp]
      omega
    · rw [List.foldl_cons, if_neg hp, ih _ hmem]
      simp [List.filter_cons, hp]

lemma filter_not_filter_nil {α : Type} (p : α → Bool) (l : List α) :
    (l.filter (fun a => !(p a))).filter p = [] := by
  rw [List.filter_eq_nil_iff]
  intro a ha
  have h2 := (List.mem_filter.1 ha).2
  simp at h2
  simp [h2]

/-- Claim C7: deleting a preset with N live spawned instances removes
all N matching Active Registry entries (and only those), grows the
recycle pool by exactly N surfaces, and — after the accompanying save —
neither the in-memory store nor the persisted document contains that
preset's id any more. -/
theorem delete_preset_cascade (st : AppState) (pid : String)
    (halive : ∀ e ∈ st.registry, e.preset_id = some pid → e.alive = true)
    (hstore : (st.presets.map (fun p => p.id)).count pid = 1) :
    (delete_preset_clicked st pid).registry
      = st.registry.filter (fun e => !(decide (e.preset_id = some pid))) ∧
    ((delete_preset_clicked st pid).registry.filter
        (fun e => decide (e.preset_id = some pid))) = [] ∧
    (delete_preset_clicked st pid).dead_pool.length
      = st.dead_pool.length
        + (st.registry.filter (fun e => decide (e.preset_id = some pid))).length ∧
    ((delete_preset_clicked st pid).presets.map (fun p => p.id)).count pid = 0 ∧
    ((delete_preset_clicked st pid).persisted.map (fun p => p.id)).count pid
      = 0 := by
  obtain ⟨v, hv, hv0⟩ := remove_first_preset_count pid st.presets hstore
  unfold delete_preset_clicked
  rw [hv]
  refine ⟨rfl, ?_, ?_, hv0, hv0⟩
  · exact filter_not_filter_nil _ _
  · exact recycle_pool_length pid st.registry st.dead_pool halive

def c7_preset : ChibiPreset :=
  { id := "p7", name := "n7", path := "img7", width := 200, x := 100,
    y := 100, smart_hide := false, always_on_top := false, hide_delay := 3 }

def c7_entry_a : Entry :=
  { preset_id := some "p7", alive := true,
    inst := spawn_chibi_window c7_preset false 0, is_new := false,
    current_id := "p7", current_name := "n7", data0 := c7_preset }

def c7_entry_b : Entry :=
  { preset_id := some "p7", alive := true,
    inst := spawn_chibi_window c7_preset false 1, is_new := false,
    current_id := "p7", current_name := "n7", data0 := c7_preset }

def c7_state : AppState :=
  { registry := [c7_entry_a, c7_entry_b], dead_pool := [],
    global_hide := false, presets := [c7_preset], persisted := [c7_preset],
    next_sid := 2, selected_path := none }

theorem delete_preset_cascade_witness :
    (∀ e ∈ c7_state.registry, e.preset_id = some "p7" → e.alive = true) ∧
    (c7_state.presets.map (fun p => p.id)).count "p7" = 1 ∧
    ((delete_preset_clicked c7_state "p7").registry
      = c7_state.registry.filter
          (fun e => !(decide (e.preset_id = some "p7"))) ∧
    ((delete_preset_clicked c7_state "p7").registry.filter
        (fun e => decide (e.preset_id = some "p7"))) = [] ∧
    (delete_preset_clicked c7_state "p7").dead_pool.length
      = c7_state.dead_pool.length
        + (c7_state.registry.filter
            (fun e => decide (e.preset_id = some "p7"))).length ∧
    ((delete_preset_clicked c7_state "p7").presets.map
        (fun p => p.id)).count "p7" = 0 ∧
    ((delete_preset_clicked c7_state "p7").persisted.map
        (fun p => p.id)).count "p7" = 0) :=
  ⟨by decide, by decide,
    delete_preset_cascade c7_state "p7" (by decide) (by decide)⟩

/-! ## Registry never holds a None preset id (C10) -/

lemma all_ok_set {l : List Entry} {i : Nat} {e2 : Entry}
    (h : l.all entry_ok = true) (h2 : entry_ok e2 = true) :
    (l.set i e2).all entry_ok = true := by
  rw [List.all_eq_true] at h ⊢
  intro x hx
  rcases List.mem_or_eq_of_mem_set hx with h3 | h3
  · exact h x h3
  · rw [h3]; exact h2

lemma all_ok_sub {l2 l : List Entry} (hsub : l2 ⊆ l)
    (h : l.all entry_ok = true) : l2.all entry_ok = true := by
  rw [List.all_eq_true] at h ⊢
  exact fun x hx => h x (hsub hx)

lemma add_to_active_ui_ok (st : AppState) (data : ChibiPreset) (b : Bool)
    (h : registry_ok st = true) :
    registry_ok (add_to_active_ui st data b) = true := by
  unfold registry_ok at h ⊢
  unfold add_to_active_ui
  simp only [List.all_append, h, Bool.true_and]
  simp [entry_ok]

lemma step_preserves_ok (st : AppState) (op : AppOp)
    (h : registry_ok st = true) : registry_ok (step st op) = true := by
  have hmem : ∀ x ∈ st.registry, entry_ok x = true := List.all_eq_true.1 h
  cases op with
  | selectImage p => exact h
  | spawnClick form fresh =>
    show registry_ok (spawn_btn_clicked st form fresh) = true
    unfold spawn_btn_clicked
    split
    · exact h
    · exact add_to_active_ui_ok st _ true h
  | spawnPreset p => exact add_to_active_ui_ok st p false h
  | saveClick i fresh txt =>
    show registry_ok (save_clicked st i fresh txt) = true
    unfold save_clicked
    split
    · exact h
    · rename_i e he
      split
      · split
        · exact h
        · show (st.registry.set i _).all entry_ok = true
          apply all_ok_set h
          by_cases ha : e.alive = true
          · simp [entry_ok, ha]
          · simp only [entry_ok, ha, if_false]
            exact hmem e (List.getElem?_mem he)
      · exact h
  | closeClick i =>
    show registry_ok (close_clicked st i) = true
    unfold close_clicked
    split
    · exact h
    · show (match st.registry.findIdx? _ with
        | some idx => st.registry.eraseIdx idx
        | none => st.registry).all entry_ok = true
      split
      · exact all_ok_sub (List.eraseIdx_subset _ _) h
      · exact h
  | deletePreset pid =>
    show registry_ok (delete_preset_clicked st pid) = true
    unfold delete_preset_clicked
    split
    · exact all_ok_sub (List.filter_sublist st.registry).subset h
    · exact all_ok_sub (List.filter_sublist st.registry).subset h
  | toggleHideAll =>
    show registry_ok (toggle_hide_all st) = true
    unfold registry_ok toggle_hide_all
    rw [List.all_eq_true]
    intro x hx
    obtain ⟨y, hy, rfl⟩ := List.mem_map.1 hx
    have hpid : entry_ok (toggle_entry (!st.global_hide) y) = entry_ok y := by
      unfold entry_ok toggle_entry
      split
      · split <;> rfl
      · rfl
    rw [hpid]
    exact hmem y hy
  | toggleMove i a =>
    show registry_ok (update_inst st i _) = true
    unfold update_inst
    split
    · exact h
    · rename_i e he
      exact all_ok_set h (hmem e (List.getElem?_mem he))
  | hoverEnter i =>
    show registry_ok (hover_event st i) = true
    unfold hover_event
    split
    · exact h
    · rename_i e he
      split
      · exact all_ok_set h (hmem e (List.getElem?_mem he))
      · exact h
  | timerFire i =>
    show registry_ok (timer_event st i) = true
    unfold timer_event
    split
    · exact h
    · rename_i e he
      exact all_ok_set h (hmem e (List.getElem?_mem he))
  | dragBegin i =>
    show registry_ok (update_inst st i drag_begin_inst) = true
    unfold update_inst
    split
    · exact h
    · rename_i e he
      exact all_ok_set h (hmem e (List.getElem?_mem he))
  | dragUpdate i ox oy =>
    show registry_ok (drag_update_event st i ox oy) = true
    unfold drag_update_event
    split
    · exact h
    · rename_i e he
      split
      · exact all_ok_set h (hmem e (List.getElem?_mem he))
      · exact h

lemma run_preserves_ok :
    ∀ (ops : List AppOp) (st : AppState), registry_ok st = true →
      registry_ok (run st ops) = true := by
  intro ops
  induction ops with
  | nil => intro st h; exact h
  | cons op ops ih =>
    intro st h
    exact ih (step st op) (step_preserves_ok st op h)

/-- Claim C10: every registry insertion goes through `add_to_active_ui`,
which appends an entry carrying `preset_id = Some(data.id)` — for an
instance spawned fresh from the form this is the spawn-time generated
uuid — and consequently, over any event sequence from the initial state,
the Active Registry never contains an entry whose preset id is None. -/
theorem registry_preset_id_always_some (f : FileRead) (ops : List AppOp)
    (st : AppState) (data : ChibiPreset) (b : Bool) :
    registry_ok (run (init_state f) ops) = true ∧
    ((add_to_active_ui st data b).registry.map (fun e => e.preset_id))
      = st.registry.map (fun e => e.preset_id) ++ [some data.id] := by
  constructor
  · exact run_preserves_ok ops (init_state f) rfl
  · simp [add_to_active_ui]
